import Mathlib

/-!
Shallow embedding of the signing-and-broadcast engine of
`src/packages/near-api-js/src/transaction_sender.ts` (class `TransactionSender`):
access-key resolution with an in-memory cache (`findAccessKey`), unsigned
transaction construction (`signTransaction`), the bounded retry loop around
submission (`signAndSendTransaction`), and the outcome flattening / error
classification logic.

JavaScript conventions are modelled explicitly where they matter:
a property that may be absent, `null`, or an object is a three-way sum
(`FailureProp`), since `typeof null === 'object'` in JavaScript; string
truthiness is `s ≠ ""`; `BN` nonces are `Nat`.

External collaborators (the signer, the RPC provider, `parseRpcError`,
`parseResultError`, the base encoding of the transaction hash) are supplied
as environment data: each attempt receives the values those collaborators
would return.
-/

namespace NearApi

/-- A thrown JavaScript error as the engine observes it: a message, a `type`
tag (the `TypedError` kind, or the provider error type), and an optional
diagnostic context attached before re-raising. -/
structure ErrorContext where
  transactionHash : String
  deriving DecidableEq, Repr

structure TsError where
  message : String
  type : String
  context : Option ErrorContext := none
  deriving DecidableEq, Repr

/-- Access key view as returned by the provider, before nonce normalization
(`rawAccessKey` in `findAccessKey`); the permission payload is opaque. -/
structure AccessKeyViewRaw where
  nonce : Nat
  permission : String
  deriving DecidableEq, Repr

/-- Access key view with the nonce held in the wide-integer representation
(`new BN(rawAccessKey.nonce)`; `BN` is modelled as `Nat`). -/
structure AccessKeyView where
  nonce : Nat
  permission : String
  deriving DecidableEq, Repr

/-- Nonce normalization at `transaction_sender.ts:169-172`:
`{ ...rawAccessKey, nonce: new BN(rawAccessKey.nonce) }`. -/
def toAccessKeyView (raw : AccessKeyViewRaw) : AccessKeyView :=
  { nonce := raw.nonce, permission := raw.permission }

/-- The `accessKeyByPublicKeyCache` object: an association from public-key
string to access key view, keyed uniquely as a JavaScript record is. -/
abbrev AccessKeyCache := List (String × AccessKeyView)

def cacheLookup (c : AccessKeyCache) (k : String) : Option AccessKeyView :=
  match c with
  | [] => none
  | (k1, v) :: rest => if k1 = k then some v else cacheLookup rest k

/-- The `delete this.accessKeyByPublicKeyCache[publicKey.toString()]`
statement. -/
def cacheErase (c : AccessKeyCache) (k : String) : AccessKeyCache :=
  c.filter (fun p => p.1 ≠ k)

/-- Property assignment on a JavaScript record: the new binding shadows and
replaces any previous binding for the same key. -/
def cacheInsert (c : AccessKeyCache) (k : String) (v : AccessKeyView) : AccessKeyCache :=
  (k, v) :: cacheErase c k

/-- Collaborator results consumed by one call to `findAccessKey`:
the signer's `getPublicKey(accountId, networkId)` result (a public key in its
string form, or absence), and the provider's `view_access_key` query result
(either the raw access key view or a thrown error). -/
structure ResolveEnv where
  publicKey : Option String
  queryResult : Except TsError AccessKeyViewRaw
  deriving Repr

/-- Identity of the sender instance: `this.accountId`,
`this.connection.networkId`, and the string rendering of
`this.connection.signer` used in the no-key error message. -/
structure SenderCtx where
  accountId : String
  networkId : String
  signerName : String
  deriving DecidableEq, Repr

/-- Embedding of `TransactionSender.findAccessKey`
(`transaction_sender.ts:148-190`). `cache` is the cache state observed at the
initial check (line 155); `cacheAtCommit` is the cache state observed after the
network query returns (lines 177-181) — the two may differ because a concurrent
resolution may have populated the cache while the query was in flight. The
sequential case is `findAccessKeySeq`, where both snapshots coincide.
Returns the `(publicKey, accessKey)` pair (or `none`, modelling the
`return null` on `AccessKeyDoesNotExist`) together with the resulting cache. -/
def findAccessKey (ctx : SenderCtx) (cache : AccessKeyCache) (env : ResolveEnv)
    (cacheAtCommit : AccessKeyCache) :
    Except TsError (Option (String × AccessKeyView) × AccessKeyCache) :=
  match env.publicKey with
  | none =>
      .error { message := "no matching key pair found in " ++ ctx.signerName,
               type := "PublicKeyNotFound" }
  | some pk =>
      match cacheLookup cache pk with
      | some cachedAccessKey => .ok (some (pk, cachedAccessKey), cache)
      | none =>
          match env.queryResult with
          | .error e =>
              if e.type = "AccessKeyDoesNotExist" then .ok (none, cacheAtCommit)
              else .error e
          | .ok rawAccessKey =>
              let accessKey := toAccessKeyView rawAccessKey
              match cacheLookup cacheAtCommit pk with
              | some existing => .ok (some (pk, existing), cacheAtCommit)
              | none =>
                  .ok (some (pk, accessKey), cacheInsert cacheAtCommit pk accessKey)

/-- `findAccessKey` as executed by a single sequential caller: no concurrent
mutation happens between the initial cache check and the commit check, so both
observe the same cache state. -/
def findAccessKeySeq (ctx : SenderCtx) (cache : AccessKeyCache) (env : ResolveEnv) :
    Except TsError (Option (String × AccessKeyView) × AccessKeyCache) :=
  findAccessKey ctx cache env cache

/-- A structured failure payload. `error_message` and `error_type` model the
legacy-format properties tested at `transaction_sender.ts:126` (absent or
empty strings are falsy); `payload` stands for the rest of the structured
payload, opaque to the engine. -/
structure FailureValue where
  error_message : Option String := none
  error_type : Option String := none
  payload : String := ""
  deriving DecidableEq, Repr

/-- The value of the `Failure` property of an execution status, distinguishing
the three JavaScript shapes the code's `typeof` tests distinguish: an absent
property (`typeof === 'undefined'`), the value `null` (for which
`typeof === 'object'`), and a proper failure object. -/
inductive FailureProp where
  | undef : FailureProp
  | null : FailureProp
  | obj : FailureValue → FailureProp
  deriving DecidableEq, Repr

/-- An execution status: either a string-valued basic status (for which
`typeof status` is not `'object'`) or an object carrying a `Failure`
property shape. -/
inductive ExecutionStatus where
  | basic : String → ExecutionStatus
  | obj : FailureProp → ExecutionStatus
  deriving DecidableEq, Repr

/-- Reading `status.Failure`: property access on a non-object status yields
`undefined`; on an object status it yields the property itself. -/
def statusFailure : ExecutionStatus → FailureProp
  | .basic _ => .undef
  | .obj f => f

/-- `typeof f === 'object'` for a `Failure` property value: true for `null`
and for objects, false for an absent property. -/
def failureTypeofObject : FailureProp → Bool
  | .undef => false
  | .null => true
  | .obj _ => true

/-- The test at `transaction_sender.ts:124`: `typeof result.status === 'object'
&& typeof result.status.Failure === 'object' && result.status.Failure !== null`;
when it holds, yields the failure object. -/
def statusNonNullObjectFailure : ExecutionStatus → Option FailureValue
  | .obj (.obj v) => some v
  | _ => none

/-- One execution outcome of the tree: logs, receipt ids and a status. -/
structure ExecutionOutcome where
  logs : List String
  receipt_ids : List String
  status : ExecutionStatus
  deriving DecidableEq, Repr

/-- An outcome with the id of the transaction or receipt that produced it. -/
structure ExecutionOutcomeWithId where
  id : String
  outcome : ExecutionOutcome
  deriving DecidableEq, Repr

/-- The provider's response to `sendTransaction`: the overall status, the
transaction outcome, and one outcome per receipt in provider order. -/
structure FinalExecutionOutcome where
  status : ExecutionStatus
  transaction_outcome : ExecutionOutcomeWithId
  receipts_outcome : List ExecutionOutcomeWithId
  deriving DecidableEq, Repr

/-- One element of `flatLogs` (`ReceiptLogWithFailure`); `failure` is the
result of `parseRpcError` on the `Failure` property when that property is not
`undefined`, and `null` otherwise. `parseRpcError` is external; its result
(`ServerError`) is opaque, modelled as a string. -/
structure ReceiptLogWithFailure where
  receiptIds : List String
  logs : List String
  failure : Option String
  deriving DecidableEq, Repr

/-- The emission condition at `transaction_sender.ts:112-113`:
`it.outcome.logs.length || (typeof it.outcome.status === 'object' &&
typeof it.outcome.status.Failure === 'object')`. Note the absence of a
`!== null` guard: a `null`-valued `Failure` property passes this test. -/
def emitRecord (it : ExecutionOutcomeWithId) : Bool :=
  !it.outcome.logs.isEmpty ||
    (match it.outcome.status with
     | .basic _ => false
     | .obj f => failureTypeofObject f)

/-- The record built at `transaction_sender.ts:114-118`; `pre` stands for the
external `parseRpcError`. -/
def toRecord (pre : FailureProp → String) (it : ExecutionOutcomeWithId) :
    ReceiptLogWithFailure :=
  { receiptIds := it.outcome.receipt_ids,
    logs := it.outcome.logs,
    failure :=
      match statusFailure it.outcome.status with
      | .undef => none
      | f => some (pre f) }

/-- The `flatLogs` reduction at `transaction_sender.ts:111-120`: walk
`[result.transaction_outcome, ...result.receipts_outcome]` and concatenate a
record for every outcome passing the emission test. -/
def flatLogs (pre : FailureProp → String) (result : FinalExecutionOutcome) :
    List ReceiptLogWithFailure :=
  (result.transaction_outcome :: result.receipts_outcome).foldl
    (fun acc it => if emitRecord it then acc ++ [toRecord pre it] else acc) []

/-- Collaborator results consumed by one call to `signTransaction`: the
resolution inputs, the final block's header hash returned by
`provider.block({finality: 'final'})`, and the base-encoded hash of the
transaction as the external `signTransaction` of `transaction.ts` computes
it (the raw hash bytes and their base encoding are absorbed into this one
string, which is how the engine uses them). -/
structure SignEnv where
  resolve : ResolveEnv
  blockHash : String
  txHashEnc : String
  deriving Repr

/-- The signed transaction as far as the engine observes it: the receiver, the
signing public key (`signedTx.transaction.publicKey`), the nonce passed to the
external signer, and the reference block hash. The signature itself is opaque
and never inspected by the engine. -/
structure SignedTransaction where
  receiverId : String
  publicKey : String
  nonce : Nat
  blockHash : String
  deriving DecidableEq, Repr

/-- Embedding of `TransactionSender.signTransaction`
(`transaction_sender.ts:62-76`): resolve the access key (raising
`KeyNotFound` when resolution yields nothing), fetch the final block hash,
sign with nonce `accessKey.nonce + 1`. Returns the base-encoded transaction
hash and the signed transaction, together with the cache state after
resolution. -/
def signTransaction (ctx : SenderCtx) (receiverId : String) (cache : AccessKeyCache)
    (env : SignEnv) :
    Except TsError ((String × SignedTransaction) × AccessKeyCache) :=
  match findAccessKeySeq ctx cache env.resolve with
  | .error e => .error e
  | .ok (none, _) =>
      .error { message := "Can not sign transactions for account " ++ ctx.accountId ++
                 " on network " ++ ctx.networkId ++
                 ", no matching key pair exists for this account",
               type := "KeyNotFound" }
  | .ok (some (pk, accessKey), cache1) =>
      let nonce := accessKey.nonce + 1
      .ok ((env.txHashEnc,
            { receiverId := receiverId, publicKey := pk, nonce := nonce,
              blockHash := env.blockHash }), cache1)

/-- Collaborator results consumed by one broadcast attempt: the signing inputs
and the provider's `sendTransaction` response (an outcome tree or a thrown
error). -/
structure AttemptEnv where
  sign : SignEnv
  sendResult : Except TsError FinalExecutionOutcome
  deriving Repr

/-- The body of one attempt of the retry loop
(`transaction_sender.ts:86-104`): sign, submit, and classify a submission
failure. `ok none` is the `return null` retry signal; `InvalidNonce` evicts
the cache entry of the signing public key, `Expired` leaves the cache
unchanged, and any other submission failure is re-raised with an
`ErrorContext` carrying the base-encoded transaction hash. (The `logWarning`
calls are console diagnostics with no effect on state or result.) -/
def sendAttempt (ctx : SenderCtx) (receiverId : String) (cache : AccessKeyCache)
    (env : AttemptEnv) :
    Except TsError (Option FinalExecutionOutcome × AccessKeyCache) :=
  match signTransaction ctx receiverId cache env.sign with
  | .error e => .error e
  | .ok ((txHashEnc, signedTx), cache1) =>
      match env.sendResult with
      | .ok outcome => .ok (some outcome, cache1)
      | .error e =>
          if e.type = "InvalidNonce" then
            .ok (none, cacheErase cache1 signedTx.publicKey)
          else if e.type = "Expired" then
            .ok (none, cache1)
          else
            .error { e with context := some ⟨txHashEnc⟩ }

/-- Modelled from the spec: the retry driver `exponentialBackoff` of
`src/utils/exponential-backoff.ts` is not among the provided sources. Per the
spec's RetryingBroadcaster state machine, it invokes the attempt up to
`fuel` times (`fuel` is the configured maximum number of attempts, 12 by
default), returns the first non-null attempt result, propagates a thrown
error immediately, and yields `none` when every attempt signalled a
retryable failure. The wait times between rounds do not affect the value and
are not modelled. `i` is the index of the next attempt; the second component
of the result counts the attempts actually made. -/
def backoffRun {σ α : Type} (f : Nat → σ → Except TsError (Option α × σ)) :
    Nat → Nat → σ → (Except TsError (Option α × σ)) × Nat
  | _, 0, s => (.ok (none, s), 0)
  | i, fuel + 1, s =>
      match f i s with
      | .error e => (.error e, 1)
      | .ok (some r, s1) => (.ok (some r, s1), 1)
      | .ok (none, s1) =>
          match backoffRun f (i + 1) fuel s1 with
          | (res, n) => (res, n + 1)

/-- Default number of retries with different nonce before giving up on a
transaction (`transaction_sender.ts:13`). -/
def TX_NONCE_RETRY_NUMBER : Nat := 12

/-- Default wait until next retry in millis (`transaction_sender.ts:16`;
timing only, no effect on values). The backoff multiplier 1.5 of line 19 is
likewise timing-only and not modelled. -/
def TX_NONCE_RETRY_WAIT : Nat := 500

/-- The outcome aggregation of `transaction_sender.ts:111-135`, applied to a
successful submission's result: compute `flatLogs` (its value feeds only the
console-only `printLogsAndFailures`), then, unless `returnError` is set,
turn a non-null object-valued `result.status.Failure` into a thrown typed
error — built verbatim from the legacy `{error_message, error_type}` fields
when both are truthy, and otherwise delegated to the external
`parseResultError` (`perr`). -/
def processOutcome (returnError : Bool) (pre : FailureProp → String)
    (perr : FinalExecutionOutcome → TsError) (result : FinalExecutionOutcome)
    (cache1 : AccessKeyCache) :
    Except TsError (FinalExecutionOutcome × AccessKeyCache) :=
  let _flat := flatLogs pre result
  if returnError then .ok (result, cache1)
  else
    match statusNonNullObjectFailure result.status with
    | none => .ok (result, cache1)
    | some fv =>
        if (fv.error_message.getD "" ≠ "") ∧ (fv.error_type.getD "" ≠ "") then
          .error { message := "Transaction " ++ result.transaction_outcome.id ++
                     " failed. " ++ fv.error_message.getD "",
                   type := fv.error_type.getD "" }
        else
          .error (perr result)

/-- Embedding of `TransactionSender.signAndSendTransaction`
(`transaction_sender.ts:82-136`). `pre` and `perr` stand for the external
`parseRpcError` and `parseResultError`; `envs i` supplies the collaborator
results of attempt `i`. Returns the outcome (or thrown error) together with
the resulting cache, and the number of submission attempts made. -/
def signAndSendTransaction (ctx : SenderCtx) (receiverId : String)
    (returnError : Bool) (pre : FailureProp → String)
    (perr : FinalExecutionOutcome → TsError) (envs : Nat → AttemptEnv)
    (cache : AccessKeyCache) :
    (Except TsError (FinalExecutionOutcome × AccessKeyCache)) × Nat :=
  match backoffRun (fun i c => sendAttempt ctx receiverId c (envs i)) 0
      TX_NONCE_RETRY_NUMBER cache with
  | (.error e, n) => (.error e, n)
  | (.ok (none, _), n) =>
      (.error { message := "nonce retries exceeded for transaction. This usually means there are too many parallel requests with the same access key.",
                type := "RetriesExceeded" }, n)
  | (.ok (some result, cache1), n) => (processOutcome returnError pre perr result cache1, n)

theorem cacheLookup_insert (c : AccessKeyCache) (k : String) (v : AccessKeyView) :
    cacheLookup (cacheInsert c k v) k = some v := by
  simp [cacheInsert, cacheLookup]

theorem cacheLookup_erase (c : AccessKeyCache) (k : String) :
    cacheLookup (cacheErase c k) k = none := by
  induction c with
  | nil => rfl
  | cons p rest ih =>
      by_cases h : p.1 = k
      · simpa [cacheErase, List.filter, h] using ih
      · simpa [cacheErase, List.filter, cacheLookup, h] using ih

theorem flatLogs_foldl (pre : FailureProp → String)
    (l : List ExecutionOutcomeWithId) (acc : List ReceiptLogWithFailure) :
    l.foldl (fun acc it => if emitRecord it then acc ++ [toRecord pre it] else acc) acc
      = acc ++ (l.filter emitRecord).map (toRecord pre) := by
  induction l generalizing acc with
  | nil => simp
  | cons x xs ih =>
      by_cases hx : emitRecord x
      · simp [hx, ih]
      · simp [hx, ih]

theorem findAccessKeySeq_lookup (ctx : SenderCtx) (cache : AccessKeyCache)
    (env : ResolveEnv) (pk : String) (ak : AccessKeyView) (c1 : AccessKeyCache)
    (hok : findAccessKeySeq ctx cache env = .ok (some (pk, ak), c1)) :
    cacheLookup c1 pk = some ak := by
  obtain ⟨opk, q⟩ := env
  cases opk with
  | none => simp [findAccessKeySeq, findAccessKey] at hok
  | some pk0 =>
      cases hc : cacheLookup cache pk0 with
      | some v =>
          simp [findAccessKeySeq, findAccessKey, hc] at hok
          obtain ⟨⟨h1, h2⟩, h3⟩ := hok
          subst h1; subst h2; subst h3
          exact hc
      | none =>
          cases q with
          | error e =>
              by_cases he : e.type = "AccessKeyDoesNotExist" <;>
                simp [findAccessKeySeq, findAccessKey, hc, he] at hok
          | ok raw =>
              simp [findAccessKeySeq, findAccessKey, hc] at hok
              obtain ⟨⟨h1, h2⟩, h3⟩ := hok
              subst h1; subst h2; subst h3
              exact cacheLookup_insert cache pk0 (toAccessKeyView raw)

/-- Fixture sender identity used by the concrete witnesses. -/
def wCtx : SenderCtx :=
  { accountId := "alice.near", networkId := "testnet", signerName := "InMemorySigner" }

/-- Fixture raw access key view. -/
def wRaw : AccessKeyViewRaw := { nonce := 7, permission := "FullAccess" }

/-- Fixture resolution environment: a signer key and a successful query. -/
def wResolve : ResolveEnv := { publicKey := some "ed25519:pk0", queryResult := .ok wRaw }

/-- Fixture signing environment. -/
def wSignEnv : SignEnv := { resolve := wResolve, blockHash := "Hblock", txHashEnc := "Htx" }

/-- C3: for every transaction it signs, `signTransaction` sets the
transaction's nonce to exactly the cached access key's nonce plus one: on
success, the resulting cache holds an entry for the signing public key and
the signed transaction's nonce is that entry's nonce plus one. -/
theorem signTransaction_nonce_plus_one (ctx : SenderCtx) (receiverId : String)
    (cache : AccessKeyCache) (env : SignEnv) (h : String) (tx : SignedTransaction)
    (c1 : AccessKeyCache)
    (hok : signTransaction ctx receiverId cache env = .ok ((h, tx), c1)) :
    ∃ ak : AccessKeyView, cacheLookup c1 tx.publicKey = some ak ∧ tx.nonce = ak.nonce + 1 := by
  unfold signTransaction at hok
  cases hfa : findAccessKeySeq ctx cache env.resolve with
  | error e => rw [hfa] at hok; simp at hok
  | ok res =>
      obtain ⟨oak, c2⟩ := res
      cases oak with
      | none => rw [hfa] at hok; simp at hok
      | some p =>
          obtain ⟨pk, ak⟩ := p
          rw [hfa] at hok
          simp at hok
          obtain ⟨⟨h1, h2⟩, h3⟩ := hok
          subst h2; subst h3
          exact ⟨ak, findAccessKeySeq_lookup ctx cache env.resolve pk ak _ hfa, rfl⟩

/-- Witness for C3 at a concrete input: an empty cache, a successful fetch of
nonce 7, and the resulting signed transaction with nonce 8. -/
theorem signTransaction_nonce_plus_one_witness :
    ∃ ak : AccessKeyView,
      cacheLookup (cacheInsert [] "ed25519:pk0" (toAccessKeyView wRaw))
        ({ receiverId := "bob.near", publicKey := "ed25519:pk0", nonce := 8,
           blockHash := "Hblock" } : SignedTransaction).publicKey = some ak ∧
      ({ receiverId := "bob.near", publicKey := "ed25519:pk0", nonce := 8,
         blockHash := "Hblock" } : SignedTransaction).nonce = ak.nonce + 1 :=
  signTransaction_nonce_plus_one wCtx "bob.near" [] wSignEnv "Htx" _ _ (by rfl)

theorem cacheInsert_countP (c : AccessKeyCache) (k : String) (v : AccessKeyView) :
    (cacheInsert c k v).countP (fun p => p.1 = k) = 1 := by
  simp only [cacheInsert, List.countP_cons]
  have h0 : (cacheErase c k).countP (fun p => p.1 = k) = 0 := by
    apply List.countP_eq_zero.mpr
    intro p hp
    simp only [cacheErase, List.mem_filter] at hp
    simpa using hp.2
  simp [h0]

/-- C4: `findAccessKey` populates the cache only if no entry for the public
key exists at commit time; if an entry was cached while the query was in
flight, the fetched value is discarded and the already-cached entry is
returned, leaving the cache unchanged; otherwise the fetched value is
committed and is the entry subsequent lookups see. -/
theorem findAccessKey_populate_if_absent (ctx : SenderCtx) (cache : AccessKeyCache)
    (env : ResolveEnv) (cacheAtCommit : AccessKeyCache) (pk : String)
    (raw : AccessKeyViewRaw)
    (hpk : env.publicKey = some pk)
    (hmiss : cacheLookup cache pk = none)
    (hq : env.queryResult = .ok raw) :
    (∀ existing : AccessKeyView, cacheLookup cacheAtCommit pk = some existing →
        findAccessKey ctx cache env cacheAtCommit = .ok (some (pk, existing), cacheAtCommit)) ∧
    (cacheLookup cacheAtCommit pk = none →
        findAccessKey ctx cache env cacheAtCommit
            = .ok (some (pk, toAccessKeyView raw),
                   cacheInsert cacheAtCommit pk (toAccessKeyView raw)) ∧
        cacheLookup (cacheInsert cacheAtCommit pk (toAccessKeyView raw)) pk
            = some (toAccessKeyView raw)) ∧
    (∀ (c : AccessKeyCache) (v : AccessKeyView),
        (cacheInsert c pk v).countP (fun p => p.1 = pk) = 1) := by
  refine ⟨?_, ?_, ?_⟩
  · intro existing hex
    simp [findAccessKey, hpk, hmiss, hq, hex]
  · intro habs
    exact ⟨by simp [findAccessKey, hpk, hmiss, hq, habs],
           cacheLookup_insert cacheAtCommit pk (toAccessKeyView raw)⟩
  · intro c v
    exact cacheInsert_countP c pk v

/-- Witness for C4 at a concrete input: the key was cached (nonce 41) while a
query fetching nonce 7 was in flight; the resolution returns the cached entry
and does not overwrite it. -/
theorem findAccessKey_populate_if_absent_witness :
    findAccessKey wCtx [] wResolve [("ed25519:pk0", { nonce := 41, permission := "FullAccess" })]
      = .ok (some ("ed25519:pk0", { nonce := 41, permission := "FullAccess" }),
             [("ed25519:pk0", { nonce := 41, permission := "FullAccess" })]) :=
  (findAccessKey_populate_if_absent wCtx [] wResolve
      [("ed25519:pk0", { nonce := 41, permission := "FullAccess" })]
      "ed25519:pk0" wRaw (by rfl) (by rfl) (by rfl)).1
    { nonce := 41, permission := "FullAccess" } (by rfl)

/-- C5 as stated is false: when the signer yields no public key, the raised
typed error has kind `PublicKeyNotFound`, not `KeyNotFound`
(`transaction_sender.ts:152`). -/
theorem findAccessKey_no_key_counterexample :
    findAccessKey wCtx [] { publicKey := none, queryResult := .ok wRaw } []
        = .error { message := "no matching key pair found in InMemorySigner",
                   type := "PublicKeyNotFound" } ∧
    ("PublicKeyNotFound" : String) ≠ "KeyNotFound" := by
  exact ⟨by rfl, by decide⟩

/-- C5 amended: if the external signer yields no public key for the account id
and network id, access-key resolution fails with a typed error of kind
`PublicKeyNotFound`, naming the signer in its message. -/
theorem findAccessKey_public_key_not_found (ctx : SenderCtx) (cache : AccessKeyCache)
    (env : ResolveEnv) (cacheAtCommit : AccessKeyCache)
    (hpk : env.publicKey = none) :
    findAccessKey ctx cache env cacheAtCommit
      = .error { message := "no matching key pair found in " ++ ctx.signerName,
                 type := "PublicKeyNotFound" } := by
  simp [findAccessKey, hpk]

/-- Witness for the amended C5 at a concrete input. -/
theorem findAccessKey_public_key_not_found_witness :
    findAccessKey wCtx [] { publicKey := none, queryResult := .ok wRaw } []
      = .error { message := "no matching key pair found in " ++ wCtx.signerName,
                 type := "PublicKeyNotFound" } :=
  findAccessKey_public_key_not_found wCtx [] _ [] (by rfl)

/-- C6: a provider query failing with `AccessKeyDoesNotExist` makes
`findAccessKey` return a null result instead of raising, any other query
failure propagates unchanged, and `signTransaction` raises a `KeyNotFound`
typed error when resolution yields nothing. -/
theorem findAccessKey_does_not_exist_null (ctx : SenderCtx)
    (cache : AccessKeyCache) (env : ResolveEnv) (cacheAtCommit : AccessKeyCache)
    (pk : String) (e : TsError)
    (hpk : env.publicKey = some pk)
    (hmiss : cacheLookup cache pk = none)
    (hq : env.queryResult = .error e) :
    (e.type = "AccessKeyDoesNotExist" →
        findAccessKey ctx cache env cacheAtCommit = .ok (none, cacheAtCommit)) ∧
    (e.type ≠ "AccessKeyDoesNotExist" →
        findAccessKey ctx cache env cacheAtCommit = .error e) ∧
    (∀ (receiverId : String) (senv : SignEnv) (c1 : AccessKeyCache),
        findAccessKeySeq ctx cache senv.resolve = .ok (none, c1) →
        signTransaction ctx receiverId cache senv
          = .error { message := "Can not sign transactions for account " ++ ctx.accountId ++
                       " on network " ++ ctx.networkId ++
                       ", no matching key pair exists for this account",
                     type := "KeyNotFound" }) := by
  refine ⟨?_, ?_, ?_⟩
  · intro he; simp [findAccessKey, hpk, hmiss, hq, he]
  · intro he; simp [findAccessKey, hpk, hmiss, hq, he]
  · intro receiverId senv c1 hres
    simp [signTransaction, hres]

/-- Fixture: a provider query failure of type `AccessKeyDoesNotExist`. -/
def wNoKeyErr : TsError := { message := "does not exist", type := "AccessKeyDoesNotExist" }

/-- Fixture resolution environment whose query fails with `wNoKeyErr`. -/
def wResolveMissing : ResolveEnv :=
  { publicKey := some "ed25519:pk0", queryResult := .error wNoKeyErr }

/-- Fixture signing environment built on `wResolveMissing`. -/
def wSignEnvMissing : SignEnv :=
  { resolve := wResolveMissing, blockHash := "Hblock", txHashEnc := "Htx" }

/-- Witness for C6 at a concrete input: a query failing with
`AccessKeyDoesNotExist` yields a null resolution, and signing then raises
`KeyNotFound`. -/
theorem findAccessKey_does_not_exist_null_witness :
    (findAccessKey wCtx [] wResolveMissing [] = .ok (none, [])) ∧
    (signTransaction wCtx "bob.near" [] wSignEnvMissing
      = .error { message := "Can not sign transactions for account " ++ wCtx.accountId ++
                   " on network " ++ wCtx.networkId ++
                   ", no matching key pair exists for this account",
                 type := "KeyNotFound" }) :=
  ⟨(findAccessKey_does_not_exist_null wCtx [] wResolveMissing [] "ed25519:pk0" wNoKeyErr
      (by rfl) (by rfl) (by rfl)).1 (by rfl),
   (findAccessKey_does_not_exist_null wCtx [] wResolveMissing [] "ed25519:pk0" wNoKeyErr
      (by rfl) (by rfl) (by rfl)).2.2 "bob.near" wSignEnvMissing [] (by rfl)⟩

theorem backoffRun_first_error {σ α : Type} (f : Nat → σ → Except TsError (Option α × σ))
    (i fuel : Nat) (s : σ) (e : TsError) (hf : f i s = .error e) :
    backoffRun f i (fuel + 1) s = (.error e, 1) := by
  simp [backoffRun, hf]

theorem backoffRun_first_some {σ α : Type} (f : Nat → σ → Except TsError (Option α × σ))
    (i fuel : Nat) (s : σ) (r : α) (s1 : σ) (hf : f i s = .ok (some r, s1)) :
    backoffRun f i (fuel + 1) s = (.ok (some r, s1), 1) := by
  simp [backoffRun, hf]

theorem backoffRun_all_none {σ α : Type} (f : Nat → σ → Except TsError (Option α × σ))
    (hf : ∀ i s, ∃ s1, f i s = .ok (none, s1)) :
    ∀ (fuel i : Nat) (s : σ), ∃ s1,
      backoffRun f i fuel s = ((.ok (none, s1) : Except TsError (Option α × σ)), fuel) := by
  intro fuel
  induction fuel with
  | zero => intro i s; exact ⟨s, rfl⟩
  | succ n ih =>
      intro i s
      obtain ⟨s1, h1⟩ := hf i s
      obtain ⟨s2, h2⟩ := ih (i + 1) s1
      exact ⟨s2, by simp [backoffRun, h1, h2]⟩

/-- C2: classification of a submission failure inside one attempt of
`signAndSendTransaction`: an `InvalidNonce` failure deletes the cached access
key entry of the signing public key and signals a retry (`ok none`); an
`Expired` failure signals a retry with the cache unchanged; any other failure
is re-raised with an `ErrorContext` carrying the base-encoded transaction
hash, and the retry loop then aborts immediately with it after a single
attempt. -/
theorem sendAttempt_error_classification (ctx : SenderCtx) (receiverId : String)
    (cache : AccessKeyCache) (env : AttemptEnv) (h : String) (tx : SignedTransaction)
    (c1 : AccessKeyCache) (e : TsError)
    (hsign : signTransaction ctx receiverId cache env.sign = .ok ((h, tx), c1))
    (hsend : env.sendResult = .error e) :
    (e.type = "InvalidNonce" →
        sendAttempt ctx receiverId cache env = .ok (none, cacheErase c1 tx.publicKey) ∧
        cacheLookup (cacheErase c1 tx.publicKey) tx.publicKey = none) ∧
    (e.type = "Expired" →
        sendAttempt ctx receiverId cache env = .ok (none, c1)) ∧
    (e.type ≠ "InvalidNonce" → e.type ≠ "Expired" →
        sendAttempt ctx receiverId cache env = .error { e with context := some ⟨h⟩ } ∧
        (∀ (envs : Nat → AttemptEnv), envs 0 = env →
          ∀ (returnError : Bool) (pre : FailureProp → String)
            (perr : FinalExecutionOutcome → TsError),
            signAndSendTransaction ctx receiverId returnError pre perr envs cache
              = (.error { e with context := some ⟨h⟩ }, 1))) := by
  refine ⟨?_, ?_, ?_⟩
  · intro he
    exact ⟨by simp [sendAttempt, hsign, hsend, he], cacheLookup_erase c1 tx.publicKey⟩
  · intro he
    simp [sendAttempt, hsign, hsend, he]
  · intro h1 h2
    have hatt : sendAttempt ctx receiverId cache env = .error { e with context := some ⟨h⟩ } := by
      simp [sendAttempt, hsign, hsend, h1, h2]
    refine ⟨hatt, ?_⟩
    intro envs h0 returnError pre perr
    have hb := backoffRun_first_error
      (fun i c => sendAttempt ctx receiverId c (envs i)) 0 11 cache
      { e with context := some ⟨h⟩ } (by simpa [h0] using hatt)
    unfold signAndSendTransaction
    rw [show TX_NONCE_RETRY_NUMBER = 11 + 1 from rfl, hb]

/-- Fixture: an `Expired` submission failure. -/
def wExpiredErr : TsError := { message := "block hash expired", type := "Expired" }

/-- Witness for C2 at a concrete input: an attempt whose submission fails with
`Expired` signals a retry and leaves the cache unchanged. -/
theorem sendAttempt_error_classification_witness :
    sendAttempt wCtx "bob.near" [] { sign := wSignEnv, sendResult := .error wExpiredErr }
      = .ok (none, cacheInsert [] "ed25519:pk0" (toAccessKeyView wRaw)) :=
  (sendAttempt_error_classification wCtx "bob.near" []
      { sign := wSignEnv, sendResult := .error wExpiredErr } "Htx"
      { receiverId := "bob.near", publicKey := "ed25519:pk0", nonce := 8,
        blockHash := "Hblock" }
      (cacheInsert [] "ed25519:pk0" (toAccessKeyView wRaw)) wExpiredErr
      (by rfl) (by rfl)).2.1 (by rfl)

theorem signTransaction_ok_of_resolvable (ctx : SenderCtx) (receiverId : String)
    (cache : AccessKeyCache) (env : SignEnv)
    (hpk : (env.resolve.publicKey).isSome)
    (hq : ∃ raw, env.resolve.queryResult = .ok raw) :
    ∃ h tx c1, signTransaction ctx receiverId cache env = .ok ((h, tx), c1) := by
  obtain ⟨pk, hpk'⟩ := Option.isSome_iff_exists.mp hpk
  obtain ⟨raw, hq'⟩ := hq
  cases hc : cacheLookup cache pk with
  | some v =>
      refine ⟨env.txHashEnc,
        { receiverId := receiverId, publicKey := pk, nonce := v.nonce + 1,
          blockHash := env.blockHash }, cache, ?_⟩
      simp [signTransaction, findAccessKeySeq, findAccessKey, hpk', hc]
  | none =>
      refine ⟨env.txHashEnc,
        { receiverId := receiverId, publicKey := pk,
          nonce := (toAccessKeyView raw).nonce + 1, blockHash := env.blockHash },
        cacheInsert cache pk (toAccessKeyView raw), ?_⟩
      simp [signTransaction, findAccessKeySeq, findAccessKey, hpk', hc, hq']

theorem sendAttempt_invalid_nonce_none (ctx : SenderCtx) (receiverId : String)
    (cache : AccessKeyCache) (env : AttemptEnv)
    (hpk : (env.sign.resolve.publicKey).isSome)
    (hq : ∃ raw, env.sign.resolve.queryResult = .ok raw)
    (hsend : ∃ e, env.sendResult = .error e ∧ e.type = "InvalidNonce") :
    ∃ c1, sendAttempt ctx receiverId cache env = .ok (none, c1) := by
  obtain ⟨h, tx, c1, hsign⟩ := signTransaction_ok_of_resolvable ctx receiverId cache env.sign hpk hq
  obtain ⟨e, he1, he2⟩ := hsend
  exact ⟨cacheErase c1 tx.publicKey, by simp [sendAttempt, hsign, he1, he2]⟩

/-- C1: when every submission attempt fails with the retryable `InvalidNonce`
error while signing itself succeeds, `signAndSendTransaction` makes exactly
`TX_NONCE_RETRY_NUMBER` (= 12) submission attempts and then raises a typed
error of kind `RetriesExceeded` whose message states that this usually means
too many parallel requests with the same access key. -/
theorem signAndSendTransaction_retries_exceeded (ctx : SenderCtx) (receiverId : String)
    (returnError : Bool) (pre : FailureProp → String)
    (perr : FinalExecutionOutcome → TsError) (envs : Nat → AttemptEnv)
    (cache : AccessKeyCache)
    (hpk : ∀ i, ((envs i).sign.resolve.publicKey).isSome)
    (hq : ∀ i, ∃ raw, (envs i).sign.resolve.queryResult = .ok raw)
    (hsend : ∀ i, ∃ e, (envs i).sendResult = .error e ∧ e.type = "InvalidNonce") :
    signAndSendTransaction ctx receiverId returnError pre perr envs cache
      = (.error { message := "nonce retries exceeded for transaction. This usually means there are too many parallel requests with the same access key.",
                  type := "RetriesExceeded" }, TX_NONCE_RETRY_NUMBER) ∧
    TX_NONCE_RETRY_NUMBER = 12 := by
  have hall : ∀ i s, ∃ s1,
      (fun i c => sendAttempt ctx receiverId c (envs i)) i s
        = (.ok (none, s1) : Except TsError (Option FinalExecutionOutcome × AccessKeyCache)) := by
    intro i s
    exact sendAttempt_invalid_nonce_none ctx receiverId s (envs i) (hpk i) (hq i) (hsend i)
  obtain ⟨s1, hb⟩ := backoffRun_all_none _ hall TX_NONCE_RETRY_NUMBER 0 cache
  refine ⟨?_, rfl⟩
  unfold signAndSendTransaction
  rw [hb]

/-- Fixture: an `InvalidNonce` submission failure. -/
def wInvalidNonceErr : TsError := { message := "nonce is stale", type := "InvalidNonce" }

/-- Fixture attempt environment: signing succeeds, submission always fails
with `InvalidNonce`. -/
def wStubEnv : AttemptEnv := { sign := wSignEnv, sendResult := .error wInvalidNonceErr }

/-- Fixture stand-in for the external `parseRpcError`. -/
def wPre : FailureProp → String := fun _ => "parsed failure"

/-- Fixture stand-in for the external `parseResultError`. -/
def wPerr : FinalExecutionOutcome → TsError :=
  fun _ => { message := "server error", type := "ServerError" }

/-- Witness for C1 at a concrete input: a stub that always reports
`InvalidNonce` exhausts exactly 12 attempts and yields `RetriesExceeded`. -/
theorem signAndSendTransaction_retries_exceeded_witness :
    signAndSendTransaction wCtx "bob.near" false wPre wPerr (fun _ => wStubEnv) []
      = (.error { message := "nonce retries exceeded for transaction. This usually means there are too many parallel requests with the same access key.",
                  type := "RetriesExceeded" }, TX_NONCE_RETRY_NUMBER) ∧
    TX_NONCE_RETRY_NUMBER = 12 :=
  signAndSendTransaction_retries_exceeded wCtx "bob.near" false wPre wPerr
    (fun _ => wStubEnv) [] (fun _ => by rfl) (fun _ => ⟨wRaw, rfl⟩)
    (fun _ => ⟨wInvalidNonceErr, rfl, rfl⟩)

/-- Spec-side reading of a status that "carries a structured failure": the
status is an object whose `Failure` property holds an actual failure payload;
an absent or `null`-valued `Failure` carries none. Stated from the spec's
words, for comparison with the code's emission test `emitRecord`. -/
def carriesStructuredFailure (s : ExecutionStatus) : Bool :=
  match s with
  | .obj (.obj _) => true
  | _ => false

/-- C7 as stated is false: an outcome with no logs whose status is an object
with a `null`-valued `Failure` property carries no structured failure, yet
`flatLogs` emits a record for it, because the test at
`transaction_sender.ts:113` is `typeof Failure === 'object'`, which holds for
`null`. -/
theorem flatLogs_null_failure_counterexample :
    carriesStructuredFailure (.obj .null) = false ∧
    ((⟨"tx1", ⟨[], ["r0"], .obj .null⟩⟩ : ExecutionOutcomeWithId).outcome.logs.isEmpty = true) ∧
    flatLogs wPre
        { status := .obj .null,
          transaction_outcome := ⟨"tx1", ⟨[], ["r0"], .obj .null⟩⟩,
          receipts_outcome := [] }
      = [{ receiptIds := ["r0"], logs := [], failure := some (wPre .null) }] := by
  exact ⟨rfl, rfl, rfl⟩

/-- C7 amended: the flattened record sequence walks the transaction outcome
first and then each receipt outcome in provider order, emitting a record
exactly for the outcomes whose logs are non-empty or whose status is an
object with an object-typed `Failure` property (a failure payload or `null`),
each projected to its record; in particular the spec's example — transaction
logs `a`, one receipt with logs `b`, one receipt with no logs and no
failure — produces exactly the first two records, in that order. -/
theorem flatLogs_emission_characterization :
    (∀ (pre : FailureProp → String) (result : FinalExecutionOutcome),
        flatLogs pre result
          = ((result.transaction_outcome :: result.receipts_outcome).filter
              emitRecord).map (toRecord pre)) ∧
    flatLogs wPre
        { status := .basic "SuccessValue",
          transaction_outcome := ⟨"tx1", ⟨["a"], ["r0"], .basic "SuccessValue"⟩⟩,
          receipts_outcome := [⟨"rc1", ⟨["b"], ["r1"], .basic "SuccessValue"⟩⟩,
                               ⟨"rc2", ⟨[], ["r2"], .basic "SuccessValue"⟩⟩] }
      = [{ receiptIds := ["r0"], logs := ["a"], failure := none },
         { receiptIds := ["r1"], logs := ["b"], failure := none }] := by
  constructor
  · intro pre result
    simpa [flatLogs] using
      flatLogs_foldl pre (result.transaction_outcome :: result.receipts_outcome) []
  · rfl

theorem signAndSendTransaction_first_attempt_ok (ctx : SenderCtx) (receiverId : String)
    (returnError : Bool) (pre : FailureProp → String)
    (perr : FinalExecutionOutcome → TsError) (envs : Nat → AttemptEnv)
    (cache : AccessKeyCache) (result : FinalExecutionOutcome) (c1 : AccessKeyCache)
    (h0 : sendAttempt ctx receiverId cache (envs 0) = .ok (some result, c1)) :
    signAndSendTransaction ctx receiverId returnError pre perr envs cache
      = (processOutcome returnError pre perr result c1, 1) := by
  have hb := backoffRun_first_some (fun i c => sendAttempt ctx receiverId c (envs i))
    0 11 cache result c1 (by simpa using h0)
  unfold signAndSendTransaction
  rw [show TX_NONCE_RETRY_NUMBER = 11 + 1 from rfl, hb]

/-- C8: when the first attempt succeeds with an outcome whose overall status
is a structured failure carrying truthy legacy `error_message` and
`error_type` fields and `returnError` is unset, the raised typed error's kind
is exactly the `error_type` value and its message extends the `error_message`
value verbatim; a structured failure without the legacy shape is instead
turned into the external result-error parser's output. -/
theorem signAndSendTransaction_legacy_failure (ctx : SenderCtx) (receiverId : String)
    (pre : FailureProp → String) (perr : FinalExecutionOutcome → TsError)
    (envs : Nat → AttemptEnv) (cache : AccessKeyCache)
    (result : FinalExecutionOutcome) (c1 : AccessKeyCache) (fv : FailureValue)
    (h0 : sendAttempt ctx receiverId cache (envs 0) = .ok (some result, c1))
    (hst : result.status = .obj (.obj fv)) :
    (∀ em et, fv.error_message = some em → em ≠ "" → fv.error_type = some et → et ≠ "" →
        signAndSendTransaction ctx receiverId false pre perr envs cache
          = (.error { message := "Transaction " ++ result.transaction_outcome.id ++
                        " failed. " ++ em,
                      type := et }, 1)) ∧
    (¬ (fv.error_message.getD "" ≠ "" ∧ fv.error_type.getD "" ≠ "") →
        signAndSendTransaction ctx receiverId false pre perr envs cache
          = (.error (perr result), 1)) := by
  have hrun := signAndSendTransaction_first_attempt_ok ctx receiverId false pre perr
    envs cache result c1 h0
  constructor
  · intro em et hm hm' ht ht'
    rw [hrun]
    simp [processOutcome, statusNonNullObjectFailure, hst, hm, ht, hm', ht']
  · intro hnot
    rw [hrun]
    simp only [processOutcome, statusNonNullObjectFailure, hst]
    simp [hnot]

/-- Fixture legacy failure payload of the spec's example. -/
def wLegacyFailure : FailureValue :=
  { error_message := some "boom", error_type := some "GuestPanic" }

/-- Fixture outcome whose overall status is the legacy failure. -/
def wLegacyResult : FinalExecutionOutcome :=
  { status := .obj (.obj wLegacyFailure),
    transaction_outcome := ⟨"tx1", ⟨[], ["r0"], .basic "SuccessValue"⟩⟩,
    receipts_outcome := [] }

/-- Fixture attempt environment whose submission succeeds with the legacy
failure outcome. -/
def wOkEnvLegacy : AttemptEnv := { sign := wSignEnv, sendResult := .ok wLegacyResult }

/-- Witness for C8 at a concrete input: a top-level failure of
`error_message: boom, error_type: GuestPanic` raises a typed error of kind
`GuestPanic` whose message carries `boom`. -/
theorem signAndSendTransaction_legacy_failure_witness :
    signAndSendTransaction wCtx "bob.near" false wPre wPerr (fun _ => wOkEnvLegacy) []
      = (.error { message := "Transaction " ++ wLegacyResult.transaction_outcome.id ++
                    " failed. " ++ "boom",
                  type := "GuestPanic" }, 1) :=
  (signAndSendTransaction_legacy_failure wCtx "bob.near" wPre wPerr (fun _ => wOkEnvLegacy)
      [] wLegacyResult (cacheInsert [] "ed25519:pk0" (toAccessKeyView wRaw)) wLegacyFailure
      (by rfl) (by rfl)).1 "boom" "GuestPanic" (by rfl) (by decide) (by rfl) (by decide)

/-- Fixture failure payload carrying both legacy fields but with an empty
(falsy) `error_message`. -/
def wEmptyMsgFailure : FailureValue :=
  { error_message := some "", error_type := some "GuestPanic" }

/-- Fixture outcome whose overall status is `wEmptyMsgFailure`. -/
def wEmptyMsgResult : FinalExecutionOutcome :=
  { status := .obj (.obj wEmptyMsgFailure),
    transaction_outcome := ⟨"tx1", ⟨[], ["r0"], .basic "SuccessValue"⟩⟩,
    receipts_outcome := [] }

/-- Fixture attempt environment whose submission succeeds with
`wEmptyMsgResult`. -/
def wOkEnvEmptyMsg : AttemptEnv := { sign := wSignEnv, sendResult := .ok wEmptyMsgResult }

/-- C8 as stated is false: a structured failure carrying both an
`error_message` and an `error_type` field, but with an empty (JS-falsy)
`error_message` value, is not treated as the legacy shape — the `&&` test at
`transaction_sender.ts:126` fails and the error is delegated to the external
result-error parser, whose kind (here `ServerError`) is not the `error_type`
value `GuestPanic`. -/
theorem signAndSendTransaction_legacy_empty_message_counterexample :
    signAndSendTransaction wCtx "bob.near" false wPre wPerr (fun _ => wOkEnvEmptyMsg) []
        = (.error (wPerr wEmptyMsgResult), 1) ∧
    wEmptyMsgFailure.error_message = some "" ∧
    wEmptyMsgFailure.error_type = some "GuestPanic" ∧
    (wPerr wEmptyMsgResult).type = "ServerError" ∧
    ("ServerError" : String) ≠ "GuestPanic" := by
  exact ⟨by rfl, rfl, rfl, rfl, by decide⟩

/-- C9: with `returnError = true` the raw outcome object is returned even when
the overall status is a structured failure; and any outcome whose status has
no non-null object-valued `Failure` is returned unchanged whatever
`returnError` is. -/
theorem signAndSendTransaction_returnError_bypass (ctx : SenderCtx) (receiverId : String)
    (pre : FailureProp → String) (perr : FinalExecutionOutcome → TsError)
    (envs : Nat → AttemptEnv) (cache : AccessKeyCache)
    (result : FinalExecutionOutcome) (c1 : AccessKeyCache)
    (h0 : sendAttempt ctx receiverId cache (envs 0) = .ok (some result, c1)) :
    (signAndSendTransaction ctx receiverId true pre perr envs cache
        = (.ok (result, c1), 1)) ∧
    (statusNonNullObjectFailure result.status = none →
        ∀ returnError, signAndSendTransaction ctx receiverId returnError pre perr envs cache
          = (.ok (result, c1), 1)) := by
  constructor
  · rw [signAndSendTransaction_first_attempt_ok ctx receiverId true pre perr envs cache
        result c1 h0]
    simp [processOutcome]
  · intro hok returnError
    rw [signAndSendTransaction_first_attempt_ok ctx receiverId returnError pre perr envs
        cache result c1 h0]
    cases returnError <;> simp [processOutcome, hok]

/-- Witness for C9 at a concrete input: with `returnError = true` the legacy
failure outcome is returned as data, with no error raised. -/
theorem signAndSendTransaction_returnError_bypass_witness :
    signAndSendTransaction wCtx "bob.near" true wPre wPerr (fun _ => wOkEnvLegacy) []
      = (.ok (wLegacyResult, cacheInsert [] "ed25519:pk0" (toAccessKeyView wRaw)), 1) :=
  (signAndSendTransaction_returnError_bypass wCtx "bob.near" wPre wPerr
      (fun _ => wOkEnvLegacy) [] wLegacyResult
      (cacheInsert [] "ed25519:pk0" (toAccessKeyView wRaw)) (by rfl)).1

/-- C10: an outcome whose top-level status is an object with a `null`-valued
`Failure` property is returned raw, raising no error, even when `returnError`
is false: the `!== null` guard at `transaction_sender.ts:124` excludes it from
the failure path. -/
theorem signAndSendTransaction_null_failure_returns (ctx : SenderCtx) (receiverId : String)
    (returnError : Bool) (pre : FailureProp → String)
    (perr : FinalExecutionOutcome → TsError) (envs : Nat → AttemptEnv)
    (cache : AccessKeyCache) (result : FinalExecutionOutcome) (c1 : AccessKeyCache)
    (h0 : sendAttempt ctx receiverId cache (envs 0) = .ok (some result, c1))
    (hst : result.status = .obj .null) :
    signAndSendTransaction ctx receiverId returnError pre perr envs cache
      = (.ok (result, c1), 1) := by
  rw [signAndSendTransaction_first_attempt_ok ctx receiverId returnError pre perr envs
      cache result c1 h0]
  cases returnError <;> simp [processOutcome, statusNonNullObjectFailure, hst]

/-- Fixture outcome whose top-level status is an object with `Failure: null`. -/
def wNullFailureResult : FinalExecutionOutcome :=
  { status := .obj .null,
    transaction_outcome := ⟨"tx1", ⟨[], ["r0"], .basic "SuccessValue"⟩⟩,
    receipts_outcome := [] }

/-- Fixture attempt environment whose submission succeeds with the
`Failure: null` outcome. -/
def wOkEnvNullFailure : AttemptEnv :=
  { sign := wSignEnv, sendResult := .ok wNullFailureResult }

/-- Witness for C10 at a concrete input: the `Failure: null` outcome is
returned raw with `returnError` unset. -/
theorem signAndSendTransaction_null_failure_returns_witness :
    signAndSendTransaction wCtx "bob.near" false wPre wPerr (fun _ => wOkEnvNullFailure) []
      = (.ok (wNullFailureResult, cacheInsert [] "ed25519:pk0" (toAccessKeyView wRaw)), 1) :=
  signAndSendTransaction_null_failure_returns wCtx "bob.near" false wPre wPerr
    (fun _ => wOkEnvNullFailure) [] wNullFailureResult
    (cacheInsert [] "ed25519:pk0" (toAccessKeyView wRaw)) (by rfl) (by rfl)

end NearApi
